import Mathlib

set_option autoImplicit false
set_option linter.unusedVariables false

/-
Shallow embedding of src/src/orc2/lljit.rs (the LLJIT execution-engine
facade): the LLJIT and LLJITBuilder state, engine construction, module and
object-file ingestion, symbol lookup, and the object-transformer and
object-linking-layer-creator registration with their C-ABI trampolines.

Native calls are modelled by environment records giving each call's outcome
(an error is `Option LLVMErr`, `none` standing for the null error reference).
Ownership of a native handle is modelled by an `armed` flag on the wrapper:
`armed = true` means the wrapper's destructor would dispose the handle;
`mem::forget` sets it to `false`. Pointer provenance (which storage an
address refers to) is modelled by `Addr`, a region tag plus an offset.
-/

/-- A structured native diagnostic. In the source this is `LLVMError`
wrapping a non-null `LLVMErrorRef`; only its identity matters here, so the
payload is opaque. -/
structure LLVMErr where
  payload : Nat
deriving DecidableEq, Repr

/-- Modelled from the spec: `LLVMError::new` (in the error module, outside
src/) converts a native error reference into a result — the spec treats the
error type as "a structured native error/diagnostic type used uniformly for
all failure returns, a value type consumed and converted". The null
reference (`none`) means success; a non-null reference wraps into the
structured error. -/
def LLVMError.new : Option LLVMErr → Except LLVMErr Unit
  | none => Except.ok ()
  | some e => Except.error e

/-- Storage regions an address can point into. -/
inductive Region where
  /-- The `object_transformer: RefCell<Option<Box<dyn ObjectTransformer>>>`
  field inside the `LLJIT` struct. -/
  | facadeCell
  /-- The `object_linking_layer_creator: Option<Box<dyn ObjectLinkingLayerCreator>>`
  field inside the `LLJITBuilder` struct. -/
  | builderCell
  /-- A heap allocation owned by a `Box`. -/
  | heapBox
  /-- A stack slot holding a materialized temporary value. -/
  | stackTmp
deriving DecidableEq, Repr

/-- An address: the region it points into plus an offset identifying the
particular struct instance or slot. -/
structure Addr where
  region : Region
  node : Nat
deriving DecidableEq, Repr

/-- Modelled from the spec: `JITDylib` (defined in the orc2 module, outside
src/) is "a non-owned reference into the engine's namespace" — a plain
wrapper around the native handle. -/
structure JITDylib where
  jit_dylib : Nat
deriving DecidableEq, Repr

/-- Modelled from the spec: `JITDylib::new` wraps a native `JITDylib`
handle; per the spec a dynamic library is a borrowed view "with no
independent disposal in this core". -/
def JITDylib.new (handle : Nat) : JITDylib := ⟨handle⟩

/-- Modelled from the spec: `ResourceTracker` (outside src/) is "a non-owned
reference scoping a subset of a library's contents". -/
structure ResourceTracker where
  rt : Nat
deriving DecidableEq, Repr

/-- A `ThreadSafeModule` wrapper: the native handle plus whether the
wrapper's destructor is still armed (would dispose the handle on drop).
`mem::forget` disarms it. -/
structure ThreadSafeModule where
  thread_safe_module : Nat
  armed : Bool
deriving DecidableEq, Repr

/-- A `MemoryBuffer` (object-file buffer) wrapper: the native handle plus
the armed-destructor flag. -/
structure MemoryBuffer where
  memory_buffer : Nat
  armed : Bool
deriving DecidableEq, Repr

/-- A `JITTargetMachineBuilder` configuration wrapper: the native handle
plus the armed-destructor flag. -/
structure JITTargetMachineBuilder where
  builder : Nat
  armed : Bool
deriving DecidableEq, Repr

/-- State of an `LLJIT<'jit>` value: the native engine handle, the base
address the struct occupies (the `object_transformer` cell lives at a fixed
offset inside it), the box currently stored in the
`object_transformer: RefCell<Option<Box<dyn ObjectTransformer>>>` cell
(boxes are identified by id), the log of boxes dropped so far, and the
context pointer last handed to the native
`LLVMOrcObjectTransformLayerSetTransform` call. -/
structure LLJIT where
  lljit : Nat
  structBase : Nat
  object_transformer : Option Nat
  droppedBoxes : List Nat
  registeredCtx : Option Addr
deriving DecidableEq, Repr

/-- Address of the `object_transformer` cell inside the `LLJIT` struct. -/
def LLJIT.transformerCellAddr (st : LLJIT) : Addr :=
  ⟨Region.facadeCell, st.structBase⟩

/-- Outcomes of the native calls issued during engine construction:
`Target::initialize_native` (an error message on failure) and
`LLVMOrcCreateLLJIT` (the error it returns and the handle it writes,
0 standing for the null handle). -/
structure CreateEnv where
  initNativeErr : Option String
  createErr : Option LLVMErr
  createdHandle : Nat
deriving DecidableEq, Repr

/-- Result of `LLJIT::create_with_builder` /
`LLJITBuilder::build`: `Result<LLJIT, Either<LLVMError, String>>`, plus a
constructor for the `assert!(!lljit.is_null())` panic. -/
inductive CreateResult where
  /-- `Ok(LLJIT { .. })`. -/
  | ok (engine : LLJIT)
  /-- `Err(Either::Left(LLVMError))`: the native diagnostic from
  `LLVMOrcCreateLLJIT`. -/
  | errLeft (e : LLVMErr)
  /-- `Err(Either::Right(String))`: `Target::initialize_native` failed. -/
  | errRight (msg : String)
  /-- The `assert!(!lljit.is_null())` fired: no value is returned. -/
  | panicNullHandle
deriving DecidableEq, Repr

/-- Embeds `LLJIT::create_with_builder`: first
`Target::initialize_native(..).map_err(Either::Right)?`, then
`LLVMOrcCreateLLJIT(&mut lljit, builder)` checked through
`LLVMError::new(..).map_err(Either::Left)?`, then
`assert!(!lljit.is_null())`, then the `LLJIT` value is produced with an
empty `object_transformer` cell. `base` is the address the new struct
occupies. -/
def LLJIT.create_with_builder (env : CreateEnv) (base : Nat) : CreateResult :=
  match env.initNativeErr with
  | some msg => CreateResult.errRight msg
  | none =>
    match env.createErr with
    | some e => CreateResult.errLeft e
    | none =>
      if env.createdHandle = 0 then CreateResult.panicNullHandle
      else
        CreateResult.ok
          { lljit := env.createdHandle
            structBase := base
            object_transformer := none
            droppedBoxes := []
            registeredCtx := none }

/-- Embeds `LLJIT::get_main_jit_dylib`:
`JITDylib::new(LLVMOrcLLJITGetMainJITDylib(self.lljit))`. The native call is
modelled by `mainDylibOf`, giving the main dylib handle of each engine
handle. The source has no error return and no branch: the result type is
`JITDylib` itself. -/
def LLJIT.get_main_jit_dylib (mainDylibOf : Nat → Nat) (st : LLJIT) : JITDylib :=
  JITDylib.new (mainDylibOf st.lljit)

/-- Embeds `LLJIT::add_module`: issues
`LLVMOrcLLJITAddLLVMIRModule(self.lljit, jit_dylib.jit_dylib,
module.thread_safe_module)` (outcome `nativeErr`), converts it through
`LLVMError::new`, then `forget(module)` disarms the wrapper's destructor —
unconditionally, after the native call and before the result is returned. -/
def LLJIT.add_module (st : LLJIT) (jit_dylib : JITDylib)
    (module : ThreadSafeModule) (nativeErr : Option LLVMErr) :
    Except LLVMErr Unit × ThreadSafeModule :=
  (LLVMError.new nativeErr, { module with armed := false })

/-- Embeds `LLJIT::add_module_with_rt`: same shape as `add_module`, issuing
`LLVMOrcLLJITAddLLVMIRModuleWithRT(self.lljit, rt.rt,
module.thread_safe_module)` and then `forget(module)` unconditionally. -/
def LLJIT.add_module_with_rt (st : LLJIT) (rt : ResourceTracker)
    (module : ThreadSafeModule) (nativeErr : Option LLVMErr) :
    Except LLVMErr Unit × ThreadSafeModule :=
  (LLVMError.new nativeErr, { module with armed := false })

/-- Embeds `LLJIT::add_object_file`: issues
`LLVMOrcLLJITAddObjectFile(self.lljit, jit_dylib.jit_dylib,
object_buffer.memory_buffer)` and then `forget(object_buffer)`
unconditionally. -/
def LLJIT.add_object_file (st : LLJIT) (jit_dylib : JITDylib)
    (object_buffer : MemoryBuffer) (nativeErr : Option LLVMErr) :
    Except LLVMErr Unit × MemoryBuffer :=
  (LLVMError.new nativeErr, { object_buffer with armed := false })

/-- Embeds `LLJIT::add_object_file_with_rt`: issues
`LLVMOrcLLJITAddObjectFileWithRT(self.lljit, rt.rt,
object_buffer.memory_buffer)` and then `forget(object_buffer)`
unconditionally. -/
def LLJIT.add_object_file_with_rt (st : LLJIT) (rt : ResourceTracker)
    (object_buffer : MemoryBuffer) (nativeErr : Option LLVMErr) :
    Except LLVMErr Unit × MemoryBuffer :=
  (LLVMError.new nativeErr, { object_buffer with armed := false })

/-- Outcome of the native `LLVMOrcLLJITLookup` call, per engine handle and
symbol name: the error it returns and the address it writes into
`function_address` (examined by the wrapper only when the error is null). -/
structure LookupEnv where
  lookupErr : Nat → String → Option LLVMErr
  lookupAddr : Nat → String → Nat

/-- Embeds `LLJIT::get_function_address`: `let mut function_address = 0;`
then `LLVMOrcLLJITLookup(self.lljit, &mut function_address, name)`, checked
through `LLVMError::new(error)?`, then `Ok(function_address)`. There is no
check of the address value itself. -/
def LLJIT.get_function_address (env : LookupEnv) (st : LLJIT)
    (name : String) : Except LLVMErr Nat :=
  match LLVMError.new (env.lookupErr st.lljit name) with
  | Except.error e => Except.error e
  | Except.ok _ => Except.ok (env.lookupAddr st.lljit name)

/-- Result of `LLJIT::get_function`: the typed `Function` wrapper carries
exactly the resolved address (`transmute_copy(&function_address)`), so the
`ok` payload is that address; `panicNullAddress` is the
`assert!(function_address != 0, "function address is null")` firing. -/
inductive GetFunctionResult where
  | ok (address : Nat)
  | err (e : LLVMErr)
  | panicNullAddress
deriving DecidableEq, Repr

/-- Embeds `LLJIT::get_function`: `self.get_function_address(name)?`, then
`assert!(function_address != 0, "function address is null")`, then
`Ok(Function { func: transmute_copy(&function_address), .. })`. -/
def LLJIT.get_function (env : LookupEnv) (st : LLJIT) (name : String) :
    GetFunctionResult :=
  match LLJIT.get_function_address env st name with
  | Except.error e => GetFunctionResult.err e
  | Except.ok a =>
    if a = 0 then GetFunctionResult.panicNullAddress else GetFunctionResult.ok a

/-- Embeds `LLJIT::set_object_transformer`:
`*self.object_transformer.borrow_mut() = Some(object_transformer)` stores
the new box in the cell, dropping the box previously stored there (the
assignment's drop of the old value); then
`LLVMOrcObjectTransformLayerSetTransform` is handed the trampoline together
with `self.object_transformer.borrow().as_ref().unwrap() as *const _ as *mut
c_void` — a pointer to the `Box` stored in the facade's cell, i.e. the
cell's address (region `facadeCell`, unchanged by replacement). -/
def LLJIT.set_object_transformer (st : LLJIT) (object_transformer : Nat) :
    LLJIT :=
  { st with
    object_transformer := some object_transformer
    droppedBoxes :=
      match st.object_transformer with
      | some old => st.droppedBoxes ++ [old]
      | none => st.droppedBoxes
    registeredCtx := some st.transformerCellAddr }

/-- The context dereference the trampoline performs:
`let object_transformer: &mut ObjectTransformerCtx = &mut *(ctx as *mut _)`.
A context pointing at the facade's transformer cell resolves to the box
currently stored there; any other address (a dead stack temporary, a stale
heap address) resolves to nothing valid. -/
def LLJIT.derefTransformerCtx (st : LLJIT) (ctx : Addr) : Option Nat :=
  if ctx = st.transformerCellAddr then st.object_transformer else none

/-- Embeds `object_transform_layer_transform_function`, the C-ABI trampoline
registered by `set_object_transformer`. `transform` models the registered
transformer's call through the in/out `MemoryBufferRef` slot: given the
buffer currently in the slot it yields the buffer it leaves there together
with its result (`none` = `Ok(())`). On `Ok` the trampoline returns the null
error reference (`none`) and leaves the slot as the transformer left it; on
`Err(llvm_error)` it first stores the null buffer in the slot
(`set_memory_buffer_unsafe(ptr::null_mut())`, buffer value 0) and then
returns `llvm_error.error`. The result is (final slot contents, returned
error reference). -/
def object_transform_layer_transform_function
    (transform : Nat → Nat × Option LLVMErr) (object_in_out : Nat) :
    Nat × Option LLVMErr :=
  match transform object_in_out with
  | (buf, none) => (buf, none)
  | (_, some e) => (0, some e)

/-- State of an `LLJITBuilder<'jit_builder>` value: the native builder
handle wrapped in `LLJITBuilderRef` (an owned pointer whose destructor
`LLVMOrcDisposeLLJITBuilder` is armed until `forget`), the base address the
struct occupies, the configuration handle the native builder stores, the box
in the `object_linking_layer_creator` field, the drop log, the context
pointer last handed to `LLVMOrcLLJITBuilderSetObjectLinkingLayerCreator`,
and a counter producing fresh stack-temporary slots. -/
structure LLJITBuilder where
  builder : Nat
  builderArmed : Bool
  structBase : Nat
  jit_target_machine_builder : Option Nat
  object_linking_layer_creator : Option Nat
  droppedBoxes : List Nat
  registeredCtx : Option Addr
  sp : Nat
deriving DecidableEq, Repr

/-- Address of the `object_linking_layer_creator` field inside the
`LLJITBuilder` struct. -/
def LLJITBuilder.creatorCellAddr (st : LLJITBuilder) : Addr :=
  ⟨Region.builderCell, st.structBase⟩

/-- Embeds `LLJITBuilder::set_jit_target_machine_builder`: issues
`LLVMOrcLLJITBuilderSetJITTargetMachineBuilder(self.builder,
jit_target_machine_builder.builder)` — the native builder now stores the
configuration handle — then `forget(jit_target_machine_builder)` disarms the
config wrapper's destructor, then returns `self`. The result is the returned
builder together with the consumed config wrapper's final state. -/
def LLJITBuilder.set_jit_target_machine_builder (st : LLJITBuilder)
    (jit_target_machine_builder : JITTargetMachineBuilder) :
    LLJITBuilder × JITTargetMachineBuilder :=
  ({ st with jit_target_machine_builder := some jit_target_machine_builder.builder },
   { jit_target_machine_builder with armed := false })

/-- Embeds `LLJITBuilder::set_object_linking_layer_creator`:
`self.object_linking_layer_creator = Some(object_linking_layer_creator)`
stores the new box in the field, dropping the box previously stored there;
then `LLVMOrcLLJITBuilderSetObjectLinkingLayerCreator` is handed the
trampoline together with
`&self.object_linking_layer_creator.as_ref().unwrap() as *const _ as *mut
c_void`. Tracing that expression: `.as_ref().unwrap()` evaluates to a
`&Box<dyn ObjectLinkingLayerCreator>` value (pointing at the field), and the
outer `&` materializes that temporary reference into a fresh stack slot and
takes the address of THAT slot — so the registered context is a
stack-temporary address, not the field cell's address. -/
def LLJITBuilder.set_object_linking_layer_creator (st : LLJITBuilder)
    (object_linking_layer_creator : Nat) : LLJITBuilder :=
  { st with
    object_linking_layer_creator := some object_linking_layer_creator
    droppedBoxes :=
      match st.object_linking_layer_creator with
      | some old => st.droppedBoxes ++ [old]
      | none => st.droppedBoxes
    registeredCtx := some ⟨Region.stackTmp, st.sp⟩
    sp := st.sp + 1 }

/-- The context dereference the builder-side trampoline
`object_linking_layer_creator_function` performs:
`let object_linking_layer_creator: &mut ObjectLinkingLayerCreatorCtx =
&mut *(ctx as *mut _)`. Only a context that actually addresses the builder's
`object_linking_layer_creator` cell resolves to the box stored there; any
other address — such as the dead stack temporary the registration hands
over — resolves to nothing valid (the conservative reading of a dangling
dereference). -/
def LLJITBuilder.derefCreatorCtx (st : LLJITBuilder) (ctx : Addr) : Option Nat :=
  if ctx = st.creatorCellAddr then st.object_linking_layer_creator else none

/-- Embeds `LLJITBuilder::build`: calls
`LLJIT::create_with_builder(self.builder.as_ptr())` and matches the result:
the `Err(Either::Right(_))` arm returns it without touching `self.builder`
(the builder wrapper stays as it was and disposes the handle on its normal
destruction); every other returned result first runs `forget(self.builder)`,
disarming the `LLJITBuilderRef` destructor. If the
`assert!(!lljit.is_null())` inside `create_with_builder` fires, the match is
never reached and no `forget` runs (the builder is dropped, armed as it was,
during unwinding). The second component is the `LLJITBuilderRef` armed flag
after the call. -/
def LLJITBuilder.build (env : CreateEnv) (base : Nat) (st : LLJITBuilder) :
    CreateResult × Bool :=
  match LLJIT.create_with_builder env base with
  | CreateResult.errRight msg => (CreateResult.errRight msg, st.builderArmed)
  | CreateResult.panicNullHandle => (CreateResult.panicNullHandle, st.builderArmed)
  | res => (res, false)

/-- C1 counterexample: in an environment where the native lookup reports no
error but resolves the name to the null address (writes 0),
`get_function_address` returns `Ok(0)` — the null address returned as a
successful address, not converted to a diagnostic error — and
`get_function` fires its `assert!` (a panic), instead of returning a
structured error. -/
theorem get_function_address_returns_zero_as_success :
    LLJIT.get_function_address ⟨fun _ _ => none, fun _ _ => 0⟩
        ⟨1, 0, none, [], none⟩ "f" = Except.ok 0
    ∧ LLJIT.get_function ⟨fun _ _ => none, fun _ _ => 0⟩
        ⟨1, 0, none, [], none⟩ "f" = GetFunctionResult.panicNullAddress := by
  constructor <;> rfl

/-- C1 (amended): if the native lookup reports an error, both
`get_function_address` and `get_function` return the structured diagnostic
error. If the lookup reports no error, `get_function_address` returns
whatever address the lookup wrote — including the null address — as
success; `get_function` additionally asserts the address is non-null,
panicking (not returning an error) when it is 0 and producing the typed
function at the resolved address otherwise, so `get_function` never returns
the null address as a successfully constructed function. -/
theorem get_function_address_and_get_function_characterized :
    ∀ (env : LookupEnv) (st : LLJIT) (name : String),
      (∀ e, env.lookupErr st.lljit name = some e →
          LLJIT.get_function_address env st name = Except.error e
        ∧ LLJIT.get_function env st name = GetFunctionResult.err e)
      ∧ (env.lookupErr st.lljit name = none →
          LLJIT.get_function_address env st name
              = Except.ok (env.lookupAddr st.lljit name)
        ∧ (env.lookupAddr st.lljit name = 0 →
            LLJIT.get_function env st name = GetFunctionResult.panicNullAddress)
        ∧ (env.lookupAddr st.lljit name ≠ 0 →
            LLJIT.get_function env st name
                = GetFunctionResult.ok (env.lookupAddr st.lljit name))) := by
  intro env st name
  constructor
  · intro e he
    constructor <;>
      simp [LLJIT.get_function_address, LLJIT.get_function, LLVMError.new, he]
  · intro he
    refine ⟨?_, ?_, ?_⟩
    · simp [LLJIT.get_function_address, LLVMError.new, he]
    · intro h0
      simp [LLJIT.get_function, LLJIT.get_function_address, LLVMError.new, he, h0]
    · intro h0
      simp [LLJIT.get_function, LLJIT.get_function_address, LLVMError.new, he, h0]

/-- C2 counterexample: with native-target initialization succeeding and
`LLVMOrcCreateLLJIT` reporting a diagnostic error, `build` returns the
`Either::Left` failure with the builder's destructor already disarmed
(`forget(self.builder)` ran) — so it is not true that on every failure kind
the builder retains ownership of its native handle. -/
theorem build_disarms_builder_on_native_error :
    LLJITBuilder.build ⟨none, some ⟨1⟩, 0⟩ 0
        ⟨7, true, 0, none, none, [], none, 0⟩
      = (CreateResult.errLeft ⟨1⟩, false) := by
  rfl

/-- C2 (amended): `build` matches the construction result; on the
target-initialization failure (`Either::Right`), raised before the native
constructor call, the builder retains ownership of its handle (its
destructor flag is untouched and disposal happens via normal destruction);
on success and on the native diagnostic failure (`Either::Left`) — the
native `LLVMOrcCreateLLJIT` call consumed the handle either way — `build`
runs `forget(self.builder)`, disarming the builder's destructor so it never
disposes the transferred handle. -/
theorem build_ownership_characterized :
    ∀ (env : CreateEnv) (base : Nat) (st : LLJITBuilder),
      (∀ msg, LLJIT.create_with_builder env base = CreateResult.errRight msg →
        LLJITBuilder.build env base st = (CreateResult.errRight msg, st.builderArmed))
      ∧ (∀ engine, LLJIT.create_with_builder env base = CreateResult.ok engine →
        LLJITBuilder.build env base st = (CreateResult.ok engine, false))
      ∧ (∀ e, LLJIT.create_with_builder env base = CreateResult.errLeft e →
        LLJITBuilder.build env base st = (CreateResult.errLeft e, false)) := by
  intro env base st
  refine ⟨?_, ?_, ?_⟩ <;> intro x hx <;> simp [LLJITBuilder.build, hx]

/-- C3: the engine-side registration conforms — `set_object_transformer`
hands the native layer the address of the `object_transformer` cell inside
the facade (region `facadeCell`), the same address across replacement — but
`set_object_linking_layer_creator` hands the native layer the address of a
freshly materialized stack temporary (region `stackTmp`), which is not the
address of the builder's owning field cell: the extra `&` in
`&self.object_linking_layer_creator.as_ref().unwrap()` takes the address of
a temporary `&Box` instead of the field itself. -/
theorem linking_layer_creator_ctx_is_stack_temporary :
    ∀ (lst : LLJIT) (t : Nat) (st : LLJITBuilder) (c : Nat),
      (LLJIT.set_object_transformer lst t).registeredCtx
          = some lst.transformerCellAddr
      ∧ (LLJIT.set_object_transformer lst t).transformerCellAddr
          = lst.transformerCellAddr
      ∧ (∀ t2, (LLJIT.set_object_transformer (LLJIT.set_object_transformer lst t) t2).registeredCtx
          = (LLJIT.set_object_transformer lst t).registeredCtx)
      ∧ (LLJITBuilder.set_object_linking_layer_creator st c).registeredCtx
          = some ⟨Region.stackTmp, st.sp⟩
      ∧ (LLJITBuilder.set_object_linking_layer_creator st c).registeredCtx
          ≠ some st.creatorCellAddr := by
  intro lst t st c
  refine ⟨rfl, rfl, fun t2 => rfl, rfl, ?_⟩
  simp [LLJITBuilder.set_object_linking_layer_creator, LLJITBuilder.creatorCellAddr,
    Addr.mk.injEq]

/-- C4: each of the four ingestion calls disarms its input wrapper's
destructor unconditionally — `forget` runs once the native call has been
issued, on success and on failure alike, so the wrapper never disposes the
transferred handle — while the returned result is success exactly when the
native call returned the null error reference. -/
theorem ingestion_consumes_inputs_unconditionally :
    ∀ (st : LLJIT) (d : JITDylib) (r : ResourceTracker)
      (m : ThreadSafeModule) (b : MemoryBuffer) (e : Option LLVMErr),
      ((LLJIT.add_module st d m e).2.armed = false
        ∧ ((LLJIT.add_module st d m e).1 = Except.ok () ↔ e = none))
      ∧ ((LLJIT.add_module_with_rt st r m e).2.armed = false
        ∧ ((LLJIT.add_module_with_rt st r m e).1 = Except.ok () ↔ e = none))
      ∧ ((LLJIT.add_object_file st d b e).2.armed = false
        ∧ ((LLJIT.add_object_file st d b e).1 = Except.ok () ↔ e = none))
      ∧ ((LLJIT.add_object_file_with_rt st r b e).2.armed = false
        ∧ ((LLJIT.add_object_file_with_rt st r b e).1 = Except.ok () ↔ e = none)) := by
  intro st d r m b e
  refine ⟨⟨rfl, ?_⟩, ⟨rfl, ?_⟩, ⟨rfl, ?_⟩, ⟨rfl, ?_⟩⟩ <;>
    cases e <;>
      simp [LLJIT.add_module, LLJIT.add_module_with_rt, LLJIT.add_object_file,
        LLJIT.add_object_file_with_rt, LLVMError.new]

/-- C5: when the registered transformer returns an error, the trampoline
stores the null buffer (0) in the in/out slot and only then propagates the
transformer's error; when the transformer succeeds, the trampoline returns
the null error reference and leaves the slot exactly as the transformer
left it. -/
theorem transform_trampoline_empties_buffer_on_error :
    ∀ (transform : Nat → Nat × Option LLVMErr) (buf : Nat),
      (∀ e b, transform buf = (b, some e) →
        object_transform_layer_transform_function transform buf = (0, some e))
      ∧ (∀ b, transform buf = (b, none) →
        object_transform_layer_transform_function transform buf = (b, none)) := by
  intro transform buf
  constructor
  · intro e b h
    simp [object_transform_layer_transform_function, h]
  · intro b h
    simp [object_transform_layer_transform_function, h]

/-- C5 witness: a concrete failing transformer (it leaves buffer 42 and
reports error 3) has its buffer slot emptied before the error propagates,
and a concrete succeeding transformer's rewritten buffer is kept. -/
theorem transform_trampoline_witness :
    object_transform_layer_transform_function (fun _ => (42, some ⟨3⟩)) 5
        = (0, some ⟨3⟩)
    ∧ object_transform_layer_transform_function (fun b => (b + 1, none)) 5
        = (6, none) := by
  exact ⟨((transform_trampoline_empties_buffer_on_error (fun _ => (42, some ⟨3⟩)) 5).1
      ⟨3⟩ 42 rfl),
    ((transform_trampoline_empties_buffer_on_error (fun b => (b + 1, none)) 5).2
      6 rfl)⟩

/-- C6: registering a transformer (engine side) or a link-layer creator
(builder side) replaces the previous registration: the field afterwards
holds exactly the new box (`Option` makes at most one active), and the
previously stored box — if any — is appended to the drop log exactly once
by the replacement (its drop count rises by one, and the log is untouched
when nothing was registered). On the engine side, dispatching through the
context the native layer holds after replacement resolves to the new box,
so the dropped one is never invoked through it again. On the builder side,
dispatching through the registered context resolves to no box at all —
the context is a dead stack temporary (the C3 slip), not the creator cell —
so the dropped box is likewise never reached through the registration
(though, unlike the engine side, the new box is not reachable through it
either; real execution of that dereference is undefined behavior, reported
under C3). -/
theorem registration_replaces_and_drops_previous_once :
    ∀ (st : LLJIT) (newBox : Nat) (bst : LLJITBuilder) (newCreator : Nat),
      ((LLJIT.set_object_transformer st newBox).object_transformer = some newBox)
      ∧ (∀ old, st.object_transformer = some old →
          (LLJIT.set_object_transformer st newBox).droppedBoxes
              = st.droppedBoxes ++ [old]
          ∧ ((LLJIT.set_object_transformer st newBox).droppedBoxes).count old
              = st.droppedBoxes.count old + 1)
      ∧ (st.object_transformer = none →
          (LLJIT.set_object_transformer st newBox).droppedBoxes = st.droppedBoxes)
      ∧ (∀ ctx, (LLJIT.set_object_transformer st newBox).registeredCtx = some ctx →
          LLJIT.derefTransformerCtx (LLJIT.set_object_transformer st newBox) ctx
              = some newBox)
      ∧ ((LLJITBuilder.set_object_linking_layer_creator bst newCreator).object_linking_layer_creator
          = some newCreator)
      ∧ (∀ old, bst.object_linking_layer_creator = some old →
          (LLJITBuilder.set_object_linking_layer_creator bst newCreator).droppedBoxes
              = bst.droppedBoxes ++ [old]
          ∧ ((LLJITBuilder.set_object_linking_layer_creator bst newCreator).droppedBoxes).count old
              = bst.droppedBoxes.count old + 1)
      ∧ (bst.object_linking_layer_creator = none →
          (LLJITBuilder.set_object_linking_layer_creator bst newCreator).droppedBoxes
              = bst.droppedBoxes)
      ∧ (∀ ctx, (LLJITBuilder.set_object_linking_layer_creator bst newCreator).registeredCtx
              = some ctx →
          LLJITBuilder.derefCreatorCtx
              (LLJITBuilder.set_object_linking_layer_creator bst newCreator) ctx
            = none) := by
  intro st newBox bst newCreator
  refine ⟨rfl, ?_, ?_, ?_, rfl, ?_, ?_, ?_⟩
  · intro old hold
    constructor
    · simp [LLJIT.set_object_transformer, hold]
    · simp [LLJIT.set_object_transformer, hold, List.count_append]
  · intro hnone
    simp [LLJIT.set_object_transformer, hnone]
  · intro ctx hctx
    have h2 : st.transformerCellAddr = ctx := by
      simpa [LLJIT.set_object_transformer] using hctx
    subst h2
    simp [LLJIT.derefTransformerCtx, LLJIT.set_object_transformer,
      LLJIT.transformerCellAddr]
  · intro old hold
    constructor
    · simp [LLJITBuilder.set_object_linking_layer_creator, hold]
    · simp [LLJITBuilder.set_object_linking_layer_creator, hold, List.count_append]
  · intro hnone
    simp [LLJITBuilder.set_object_linking_layer_creator, hnone]
  · intro ctx hctx
    have h2 : (⟨Region.stackTmp, bst.sp⟩ : Addr) = ctx := by
      simpa [LLJITBuilder.set_object_linking_layer_creator] using hctx
    subst h2
    simp [LLJITBuilder.derefCreatorCtx, LLJITBuilder.set_object_linking_layer_creator,
      LLJITBuilder.creatorCellAddr, Addr.mk.injEq]

/-- C7: engine construction has exactly four mutually exclusive outcomes,
characterized by the native environment: the textual target-initialization
failure (`Either::Right`) exactly when native-target initialization fails;
the structured diagnostic (`Either::Left`) exactly when initialization
succeeds and `LLVMOrcCreateLLJIT` errs (so the two failure shapes can never
both occur); success exactly when both native steps succeed with a non-null
handle (so success never carries a null-handle engine); and the `assert!`
panic — not a success return — when both succeed yet the handle is null. -/
theorem create_with_builder_outcomes_characterized :
    ∀ (env : CreateEnv) (base : Nat),
      (∀ msg, LLJIT.create_with_builder env base = CreateResult.errRight msg
        ↔ env.initNativeErr = some msg)
      ∧ (∀ e, LLJIT.create_with_builder env base = CreateResult.errLeft e
        ↔ env.initNativeErr = none ∧ env.createErr = some e)
      ∧ (∀ engine, LLJIT.create_with_builder env base = CreateResult.ok engine
        ↔ env.initNativeErr = none ∧ env.createErr = none
          ∧ env.createdHandle ≠ 0
          ∧ engine = ⟨env.createdHandle, base, none, [], none⟩)
      ∧ (LLJIT.create_with_builder env base = CreateResult.panicNullHandle
        ↔ env.initNativeErr = none ∧ env.createErr = none
          ∧ env.createdHandle = 0) := by
  intro env base
  rcases env with ⟨i, c, hnd⟩
  refine ⟨fun msg => ?_, fun e => ?_, fun engine => ?_, ?_⟩ <;>
    rcases i with _ | msg0 <;> rcases c with _ | e0 <;>
      by_cases h0 : hnd = 0 <;>
        simp_all [LLJIT.create_with_builder, eq_comm]

/-- C8: `set_jit_target_machine_builder` transfers the configuration handle
into the native builder (the builder state now stores it) and consumes the
config wrapper: its destructor is disarmed by the unconditional `forget`,
so the wrapper never disposes the transferred handle, while the builder's
own handle and its destructor flag are untouched. -/
theorem set_jit_target_machine_builder_consumes_config :
    ∀ (st : LLJITBuilder) (cfg : JITTargetMachineBuilder),
      ((LLJITBuilder.set_jit_target_machine_builder st cfg).2.armed = false)
      ∧ ((LLJITBuilder.set_jit_target_machine_builder st cfg).1.jit_target_machine_builder
          = some cfg.builder)
      ∧ ((LLJITBuilder.set_jit_target_machine_builder st cfg).2.builder = cfg.builder)
      ∧ ((LLJITBuilder.set_jit_target_machine_builder st cfg).1.builder = st.builder)
      ∧ ((LLJITBuilder.set_jit_target_machine_builder st cfg).1.builderArmed
          = st.builderArmed) := by
  intro st cfg
  exact ⟨rfl, rfl, rfl, rfl, rfl⟩

/-- C9: `get_main_jit_dylib` is total — for every native environment and
every engine state it returns the borrowed `JITDylib` wrapping exactly the
handle the native `LLVMOrcLLJITGetMainJITDylib` call produces; its result
type offers no error value and its body has no panic branch. -/
theorem get_main_jit_dylib_total :
    ∀ (mainDylibOf : Nat → Nat) (st : LLJIT),
      ∃ d : JITDylib, LLJIT.get_main_jit_dylib mainDylibOf st = d
        ∧ d.jit_dylib = mainDylibOf st.lljit := by
  intro mainDylibOf st
  exact ⟨JITDylib.new (mainDylibOf st.lljit), rfl, rfl⟩

/-- C10: whenever construction returns success, the produced engine's
native handle is non-null — the `assert!(!lljit.is_null())` sits between
the native constructor call and the production of the facade value. -/
theorem create_ok_engine_handle_nonnull :
    ∀ (env : CreateEnv) (base : Nat) (engine : LLJIT),
      LLJIT.create_with_builder env base = CreateResult.ok engine →
      engine.lljit ≠ 0 := by
  intro env base engine h
  rcases env with ⟨i, c, hnd⟩
  rcases i with _ | msg0
  · rcases c with _ | e0
    · by_cases h0 : hnd = 0
      · subst h0
        simp [LLJIT.create_with_builder] at h
      · simp [LLJIT.create_with_builder, h0] at h
        subst h
        simpa using h0
    · simp [LLJIT.create_with_builder] at h
  · simp [LLJIT.create_with_builder] at h

/-- C10 witness: a successful construction in a concrete environment
(native steps succeed, handle 5) yields an engine whose handle is
non-null. -/
theorem create_ok_engine_handle_nonnull_witness :
    (⟨5, 0, none, [], none⟩ : LLJIT).lljit ≠ 0 :=
  create_ok_engine_handle_nonnull ⟨none, none, 5⟩ 0 ⟨5, 0, none, [], none⟩ (by decide)
